import Mathlib

/-!
Shallow embedding of the Blender add-on "Plane Align View and Empty"
(src/main.py) and verification of its specification claims.

Scalars are modelled as exact rationals.  Every piece of mathematics the
add-on performs itself (vector subtraction, cross product, centroid,
matrix-times-vector) is embedded concretely from the source.  Functions the
add-on merely calls on the host application (mathutils normalized,
to_track_quat, to_euler, Matrix.inverted) are host-owned and out of scope by
the specification; they are modelled as an abstract `Host` record of total
functions, and every theorem is proved for an arbitrary host, so the results
hold regardless of the host numerics.
-/

/-- A 3D vector (mathutils.Vector of length 3), with exact rational scalars. -/
@[ext]
structure Vec3 where
  x : ℚ
  y : ℚ
  z : ℚ
deriving DecidableEq, Repr

/-- Componentwise vector addition. -/
def Vec3.add (a b : Vec3) : Vec3 := ⟨a.x + b.x, a.y + b.y, a.z + b.z⟩

/-- Componentwise vector subtraction. -/
def Vec3.sub (a b : Vec3) : Vec3 := ⟨a.x - b.x, a.y - b.y, a.z - b.z⟩

/-- Division of a vector by a scalar. -/
def Vec3.divQ (a : Vec3) (c : ℚ) : Vec3 := ⟨a.x / c, a.y / c, a.z / c⟩

instance : Add Vec3 := ⟨Vec3.add⟩

instance : Sub Vec3 := ⟨Vec3.sub⟩

instance : HDiv Vec3 ℚ Vec3 := ⟨Vec3.divQ⟩

/-- The cross product, as mathutils Vector.cross computes it. -/
def Vec3.cross (a b : Vec3) : Vec3 :=
  ⟨a.y * b.z - a.z * b.y, a.z * b.x - a.x * b.z, a.x * b.y - a.y * b.x⟩

/-- The zero vector. -/
def Vec3.zero : Vec3 := ⟨0, 0, 0⟩

/-- A quaternion given by its four components (w, x, y, z), the order in which
mathutils stores them and in which `view_rotation[:]` produces them. -/
structure Quat where
  w : ℚ
  x : ℚ
  y : ℚ
  z : ℚ
deriving DecidableEq, Repr

/-- Sum of the four components, as computed by the Python `sum(...)` call in
RestoreViewOperator.execute. -/
def Quat.compSum (q : Quat) : ℚ := q.w + q.x + q.y + q.z

/-- Squared norm of a quaternion (used only to exhibit that a counterexample
rotation is a genuine unit quaternion). -/
def Quat.normSq (q : Quat) : ℚ := q.w * q.w + q.x * q.x + q.y * q.y + q.z * q.z

/-- A 4x4 matrix (mathutils.Matrix), row major. -/
structure Mat4 where
  a00 : ℚ
  a01 : ℚ
  a02 : ℚ
  a03 : ℚ
  a10 : ℚ
  a11 : ℚ
  a12 : ℚ
  a13 : ℚ
  a20 : ℚ
  a21 : ℚ
  a22 : ℚ
  a23 : ℚ
  a30 : ℚ
  a31 : ℚ
  a32 : ℚ
  a33 : ℚ
deriving DecidableEq, Repr

/-- The identity matrix, Matrix.Identity(4). -/
def Mat4.identity : Mat4 :=
  ⟨1, 0, 0, 0,
   0, 1, 0, 0,
   0, 0, 1, 0,
   0, 0, 0, 1⟩

/-- A pure translation matrix (used for the world matrix the host gives a
freshly added empty placed at a location). -/
def Mat4.translationOf (t : Vec3) : Mat4 :=
  ⟨1, 0, 0, t.x,
   0, 1, 0, t.y,
   0, 0, 1, t.z,
   0, 0, 0, 1⟩

/-- Matrix multiplication of two 4x4 matrices (the @ operator on matrices). -/
def Mat4.mul (m n : Mat4) : Mat4 :=
  ⟨m.a00 * n.a00 + m.a01 * n.a10 + m.a02 * n.a20 + m.a03 * n.a30,
   m.a00 * n.a01 + m.a01 * n.a11 + m.a02 * n.a21 + m.a03 * n.a31,
   m.a00 * n.a02 + m.a01 * n.a12 + m.a02 * n.a22 + m.a03 * n.a32,
   m.a00 * n.a03 + m.a01 * n.a13 + m.a02 * n.a23 + m.a03 * n.a33,
   m.a10 * n.a00 + m.a11 * n.a10 + m.a12 * n.a20 + m.a13 * n.a30,
   m.a10 * n.a01 + m.a11 * n.a11 + m.a12 * n.a21 + m.a13 * n.a31,
   m.a10 * n.a02 + m.a11 * n.a12 + m.a12 * n.a22 + m.a13 * n.a32,
   m.a10 * n.a03 + m.a11 * n.a13 + m.a12 * n.a23 + m.a13 * n.a33,
   m.a20 * n.a00 + m.a21 * n.a10 + m.a22 * n.a20 + m.a23 * n.a30,
   m.a20 * n.a01 + m.a21 * n.a11 + m.a22 * n.a21 + m.a23 * n.a31,
   m.a20 * n.a02 + m.a21 * n.a12 + m.a22 * n.a22 + m.a23 * n.a32,
   m.a20 * n.a03 + m.a21 * n.a13 + m.a22 * n.a23 + m.a23 * n.a33,
   m.a30 * n.a00 + m.a31 * n.a10 + m.a32 * n.a20 + m.a33 * n.a30,
   m.a30 * n.a01 + m.a31 * n.a11 + m.a32 * n.a21 + m.a33 * n.a31,
   m.a30 * n.a02 + m.a31 * n.a12 + m.a32 * n.a22 + m.a33 * n.a32,
   m.a30 * n.a03 + m.a31 * n.a13 + m.a32 * n.a23 + m.a33 * n.a33⟩

/-- Application of a 4x4 matrix to a 3D vector, as the @ operator of mathutils
does for `matrix_world @ v.co`: the vector is promoted with homogeneous
coordinate w = 1 and the first three rows are returned. -/
def Mat4.applyV3 (m : Mat4) (v : Vec3) : Vec3 :=
  ⟨m.a00 * v.x + m.a01 * v.y + m.a02 * v.z + m.a03,
   m.a10 * v.x + m.a11 * v.y + m.a12 * v.z + m.a13,
   m.a20 * v.x + m.a21 * v.y + m.a22 * v.z + m.a23⟩

/-- The host-owned mathutils operations the add-on calls but does not
implement.  The specification places the host API out of scope, so these are
abstract total functions; all theorems hold for every host. -/
structure Host where
  normalized : Vec3 → Vec3
  to_track_quat_negZ_Y : Vec3 → Quat
  to_euler : Quat → Vec3
  invert4 : Mat4 → Mat4

/-- Object interaction mode, the relevant values of obj.mode. -/
inductive ObjMode where
  | EDIT : ObjMode
  | OBJECT : ObjMode
deriving DecidableEq, Repr

/-- Kind of a scene object: the original mesh objects versus the plain-axes
empty created by bpy.ops.object.empty_add. -/
inductive ObjKind where
  | Mesh : ObjKind
  | EmptyPlainAxes : ObjKind
deriving DecidableEq, Repr

/-- One mesh vertex as seen through bmesh: local coordinate and select flag. -/
structure Vertex where
  co : Vec3
  select : Bool
deriving DecidableEq, Repr

/-- A scene object with the fields the add-on reads or writes. -/
structure Obj where
  id : Nat
  kind : ObjKind
  mode : ObjMode
  verts : List Vertex
  matrix_world : Mat4
  matrix_basis : Mat4
  matrix_parent_inverse : Mat4
  parent : Option Nat
  location : Vec3
  rotation_euler : Vec3
deriving DecidableEq, Repr

/-- The 3D cursor; the add-on only touches its location. -/
structure Cursor3D where
  location : Vec3
deriving DecidableEq, Repr

/-- The scene state the add-on observes and mutates: the object collection,
the 3D cursor, and the registered scene property
plane_align_original_view_rotation (a 4-component float vector). -/
structure Scene where
  objects : List Obj
  cursor : Cursor3D
  plane_align_original_view_rotation : Quat
deriving DecidableEq, Repr

/-- The 3D viewport region data; the add-on only touches view_rotation. -/
structure RegionView3D where
  view_rotation : Quat
deriving DecidableEq, Repr

/-- The operator context: the scene, the active object (by id, none when
there is no active object), and the region data (none outside a 3D
viewport). -/
structure Context where
  scene : Scene
  active_object : Option Nat
  region_data : Option RegionView3D
deriving DecidableEq, Repr

/-- Report level of self.report calls made by the add-on. -/
inductive ReportLevel where
  | ERROR_INVALID_CONTEXT : ReportLevel
  | ERROR_INVALID_INPUT : ReportLevel
  | WARNING : ReportLevel
deriving DecidableEq, Repr

/-- One self.report call: a level and a message. -/
structure Report where
  level : ReportLevel
  message : String
deriving DecidableEq, Repr

/-- Whether a report is an error report (rather than a warning). -/
def Report.isError (r : Report) : Bool :=
  match r.level with
  | ReportLevel.WARNING => false
  | _ => true

/-- Result value returned by an operator execute method.  RAISED models an
uncaught Python exception escaping execute. -/
inductive OpResult where
  | FINISHED : OpResult
  | CANCELLED : OpResult
  | RAISED : OpResult
deriving DecidableEq, Repr

/-- The outcome of one execute call: result set, reports issued, and the
context afterwards. -/
structure ExecOut where
  result : OpResult
  reports : List Report
  ctx : Context
deriving DecidableEq, Repr

/-- Look an object up by id in the scene collection. -/
def findObj (l : List Obj) (i : Nat) : Option Obj :=
  l.find? (fun o => o.id == i)

/-- Resolve context.active_object to the actual object, none when absent. -/
def Context.activeObj (ctx : Context) : Option Obj :=
  ctx.active_object.bind (fun i => findObj ctx.scene.objects i)

/-- The selected vertices of an object, in bm.verts order:
`[v for v in bm.verts if v.select]`. -/
def selectedVerts (o : Obj) : List Vertex :=
  o.verts.filter (fun v => v.select)

/-- World-space position of a vertex: obj.matrix_world @ v.co. -/
def worldPos (o : Obj) (v : Vertex) : Vec3 :=
  o.matrix_world.applyV3 v.co

/-- The plane normal as both operators compute it:
vec1.cross(vec2).normalized() with vec1 = P2 - P1 and vec2 = P3 - P1. -/
def planeNormal (H : Host) (p1 p2 p3 : Vec3) : Vec3 :=
  H.normalized ((p2 - p1).cross (p3 - p1))

/-- The plane center: (v1_world + v2_world + v3_world) / 3. -/
def planeCenter (p1 p2 p3 : Vec3) : Vec3 :=
  (p1 + p2 + p3) / (3 : ℚ)

/-- View rotation visible in the context, when a viewport is present. -/
def viewRotationOf (ctx : Context) : Option Quat :=
  ctx.region_data.map (fun r => r.view_rotation)

/-- A fresh object id for a newly created object: one more than the largest
id in the collection. -/
def freshId (l : List Obj) : Nat :=
  l.foldr (fun o m => max o.id m) 0 + 1

/-- AlignViewOperator.execute from src/main.py.  The two halves of the Python
guard `obj is None or obj.mode != EDIT` are the first two branches; the
selection-count guard is the list match (a list has length 3 exactly when it
is [a, b, c]); the viewport guard is the match on region_data. -/
def AlignViewOperator.execute (H : Host) (ctx : Context) : ExecOut :=
  match Context.activeObj ctx with
  | none =>
      ⟨OpResult.CANCELLED,
       [⟨ReportLevel.ERROR_INVALID_CONTEXT, ("Please be in Edit Mode with an active object.")⟩], ctx⟩
  | some obj =>
    if obj.mode ≠ ObjMode.EDIT then
      ⟨OpResult.CANCELLED,
       [⟨ReportLevel.ERROR_INVALID_CONTEXT, ("Please be in Edit Mode with an active object.")⟩], ctx⟩
    else
      match selectedVerts obj with
      | [sv1, sv2, sv3] =>
        let v1_world := worldPos obj sv1
        let v2_world := worldPos obj sv2
        let v3_world := worldPos obj sv3
        let vec1 := v2_world - v1_world
        let vec2 := v3_world - v1_world
        let plane_normal := H.normalized (vec1.cross vec2)
        match ctx.region_data with
        | none =>
            ⟨OpResult.CANCELLED,
             [⟨ReportLevel.ERROR_INVALID_CONTEXT, ("Not in a 3D viewport.")⟩], ctx⟩
        | some region_3d =>
          let rotation_quat := H.to_track_quat_negZ_Y plane_normal
          ⟨OpResult.FINISHED, [],
           { ctx with
             scene := { ctx.scene with
                        plane_align_original_view_rotation := region_3d.view_rotation },
             region_data := some { view_rotation := rotation_quat } }⟩
      | _ =>
          ⟨OpResult.CANCELLED,
           [⟨ReportLevel.ERROR_INVALID_INPUT, ("Please select exactly 3 vertices.")⟩], ctx⟩

/-- The four values of the PlaneAlignOperator parent_type enum property. -/
inductive ParentType where
  | OBJECT : ParentType
  | KEEP_TRANSFORM : ParentType
  | WITHOUT_INVERSE : ParentType
  | KEEP_TRANSFORM_WITHOUT_INVERSE : ParentType
deriving DecidableEq, Repr

/-- PlaneAlignOperator.execute from src/main.py.  Guards as in
AlignViewOperator.execute; note the source sets the 3D cursor before the
viewport guard, so the missing-viewport cancel path keeps the moved cursor.
The happy path then: stores the original view rotation, sets the view, puts
the active object into object mode, adds a plain-axes empty at the cursor
(which becomes the active object), sets its rotation, parents the original
object to it per parent_type, and optionally resets the empty. -/
def PlaneAlignOperator.execute (H : Host) (reset_empty : Bool)
    (parent_type : ParentType) (ctx : Context) : ExecOut :=
  match Context.activeObj ctx with
  | none =>
      ⟨OpResult.CANCELLED,
       [⟨ReportLevel.ERROR_INVALID_CONTEXT, ("Please be in Edit Mode with an active object.")⟩], ctx⟩
  | some obj =>
    if obj.mode ≠ ObjMode.EDIT then
      ⟨OpResult.CANCELLED,
       [⟨ReportLevel.ERROR_INVALID_CONTEXT, ("Please be in Edit Mode with an active object.")⟩], ctx⟩
    else
      match selectedVerts obj with
      | [sv1, sv2, sv3] =>
        let v1_world := worldPos obj sv1
        let v2_world := worldPos obj sv2
        let v3_world := worldPos obj sv3
        let vec1 := v2_world - v1_world
        let vec2 := v3_world - v1_world
        let plane_normal := H.normalized (vec1.cross vec2)
        let plane_center := (v1_world + v2_world + v3_world) / (3 : ℚ)
        -- context.scene.cursor.location = plane_center (before the viewport guard)
        let ctx1 : Context :=
          { ctx with scene := { ctx.scene with cursor := ⟨plane_center⟩ } }
        match ctx.region_data with
        | none =>
            ⟨OpResult.CANCELLED,
             [⟨ReportLevel.ERROR_INVALID_CONTEXT, ("Not in a 3D viewport.")⟩], ctx1⟩
        | some region_3d =>
          let scene1 :=
            { ctx1.scene with
              plane_align_original_view_rotation := region_3d.view_rotation }
          let rotation_quat := H.to_track_quat_negZ_Y plane_normal
          let region1 : RegionView3D := { view_rotation := rotation_quat }
          -- bpy.ops.object.mode_set(mode=OBJECT)
          let objs1 := scene1.objects.map (fun o =>
            if o.id = obj.id then { o with mode := ObjMode.OBJECT } else o)
          -- bpy.ops.object.empty_add(type=PLAIN_AXES, align=WORLD): a new
          -- plain-axes empty at the 3D cursor becomes the active object
          let eid := freshId objs1
          let empty0 : Obj :=
            { id := eid, kind := ObjKind.EmptyPlainAxes, mode := ObjMode.OBJECT,
              verts := [],
              matrix_world := Mat4.translationOf scene1.cursor.location,
              matrix_basis := Mat4.translationOf scene1.cursor.location,
              matrix_parent_inverse := Mat4.identity,
              parent := none,
              location := scene1.cursor.location,
              rotation_euler := Vec3.zero }
          -- empty.rotation_euler = rotation_quat.to_euler()
          let empty1 := { empty0 with rotation_euler := H.to_euler rotation_quat }
          -- parent the original object to the empty (never its own parent:
          -- the source checks obj != empty); the empty is the freshly added
          -- object, its matrix_world still as created
          let objs2 :=
            if obj.id ≠ eid then
              objs1.map (fun o =>
                if o.id = obj.id then
                  match parent_type with
                  | ParentType.OBJECT => { o with parent := some eid }
                  | ParentType.KEEP_TRANSFORM => { o with parent := some eid }
                  | ParentType.WITHOUT_INVERSE =>
                      { o with
                          parent := some eid
                          matrix_parent_inverse := Mat4.identity }
                  | ParentType.KEEP_TRANSFORM_WITHOUT_INVERSE =>
                      { o with
                          parent := some eid
                          matrix_parent_inverse := Mat4.identity
                          matrix_basis := Mat4.mul (H.invert4 empty1.matrix_world) o.matrix_world }
                else o)
            else objs1
          -- optional reset of the empty location and rotation
          let empty2 :=
            if reset_empty then
              { empty1 with
                  location := Vec3.zero
                  rotation_euler := Vec3.zero }
            else empty1
          ⟨OpResult.FINISHED, [],
           { scene := { scene1 with objects := objs2 ++ [empty2] },
             active_object := some eid,
             region_data := some region1 }⟩
      | _ =>
          ⟨OpResult.CANCELLED,
           [⟨ReportLevel.ERROR_INVALID_INPUT, ("Please select exactly 3 vertices.")⟩], ctx⟩

/-- RestoreViewOperator.execute from src/main.py.  The Python condition is
`if original_rotation and sum(original_rotation) != 0`; the stored property
is a float vector of fixed size 4, a nonempty sequence, so its truthiness is
always true and only the sum test decides.  When the condition holds the
source assigns context.region_data.view_rotation without any viewport guard,
so outside a 3D viewport (region_data none) that attribute assignment raises. -/
def RestoreViewOperator.execute (ctx : Context) : ExecOut :=
  let original_rotation := ctx.scene.plane_align_original_view_rotation
  if original_rotation.compSum ≠ 0 then
    match ctx.region_data with
    | some _ =>
        ⟨OpResult.FINISHED, [],
         { ctx with region_data := some { view_rotation := original_rotation } }⟩
    | none => ⟨OpResult.RAISED, [], ctx⟩
  else
    ⟨OpResult.FINISHED,
     [⟨ReportLevel.WARNING, ("Original view rotation not set.")⟩], ctx⟩

/-- The default value the register function gives the scene property
plane_align_original_view_rotation (src/main.py line 201). -/
def registerDefaultStoredRotation : Quat := ⟨1, 0, 0, 0⟩

/-- Guard predicate: no active object or the active object is not in edit
mode (the first guard of both align operators). -/
def wrongMode (ctx : Context) : Bool :=
  match Context.activeObj ctx with
  | none => true
  | some o => decide (o.mode ≠ ObjMode.EDIT)

/-- Guard predicate: the number of selected vertices of the active object is
not 3 (the second guard of both align operators). -/
def wrongSelectionCount (ctx : Context) : Bool :=
  match Context.activeObj ctx with
  | none => false
  | some o => decide ((selectedVerts o).length ≠ 3)

/-- Guard predicate: the context has no 3D viewport region data (the third
guard of both align operators). -/
def noViewport (ctx : Context) : Bool :=
  ctx.region_data.isNone

/-- Branch lemma: AlignViewOperator.execute with no active object. -/
theorem align_execute_noActive (H : Host) (ctx : Context)
    (h : Context.activeObj ctx = none) :
    AlignViewOperator.execute H ctx =
      ⟨OpResult.CANCELLED,
       [⟨ReportLevel.ERROR_INVALID_CONTEXT, ("Please be in Edit Mode with an active object.")⟩],
       ctx⟩ := by
  unfold AlignViewOperator.execute
  rw [h]

/-- Branch lemma: AlignViewOperator.execute with an active object not in
edit mode. -/
theorem align_execute_badMode (H : Host) (ctx : Context) (obj : Obj)
    (h : Context.activeObj ctx = some obj) (hm : obj.mode ≠ ObjMode.EDIT) :
    AlignViewOperator.execute H ctx =
      ⟨OpResult.CANCELLED,
       [⟨ReportLevel.ERROR_INVALID_CONTEXT, ("Please be in Edit Mode with an active object.")⟩],
       ctx⟩ := by
  unfold AlignViewOperator.execute
  rw [h]
  simp [hm]

/-- Branch lemma: AlignViewOperator.execute with a selection that is not
exactly 3 vertices. -/
theorem align_execute_badCount (H : Host) (ctx : Context) (obj : Obj)
    (h : Context.activeObj ctx = some obj) (hm : obj.mode = ObjMode.EDIT)
    (hc : (selectedVerts obj).length ≠ 3) :
    AlignViewOperator.execute H ctx =
      ⟨OpResult.CANCELLED,
       [⟨ReportLevel.ERROR_INVALID_INPUT, ("Please select exactly 3 vertices.")⟩],
       ctx⟩ := by
  unfold AlignViewOperator.execute
  rw [h]
  simp only [hm]
  rcases hsel : selectedVerts obj with _ | ⟨a, _ | ⟨b, _ | ⟨c, _ | ⟨d, t⟩⟩⟩⟩ <;>
    simp_all [selectedVerts]

/-- Branch lemma: AlignViewOperator.execute with good mode and selection but
no 3D viewport. -/
theorem align_execute_noRegion (H : Host) (ctx : Context) (obj : Obj)
    (sv1 sv2 sv3 : Vertex)
    (h : Context.activeObj ctx = some obj) (hm : obj.mode = ObjMode.EDIT)
    (hs : selectedVerts obj = [sv1, sv2, sv3]) (hr : ctx.region_data = none) :
    AlignViewOperator.execute H ctx =
      ⟨OpResult.CANCELLED,
       [⟨ReportLevel.ERROR_INVALID_CONTEXT, ("Not in a 3D viewport.")⟩],
       ctx⟩ := by
  unfold AlignViewOperator.execute
  rw [h]
  simp only [hm, hs, hr]
  simp

/-- Branch lemma: the successful path of AlignViewOperator.execute stores
the prior view rotation in the scene property and points the viewport at the
track quaternion of the plane normal. -/
theorem align_execute_success (H : Host) (ctx : Context) (obj : Obj)
    (sv1 sv2 sv3 : Vertex) (rd : RegionView3D)
    (h : Context.activeObj ctx = some obj) (hm : obj.mode = ObjMode.EDIT)
    (hs : selectedVerts obj = [sv1, sv2, sv3])
    (hr : ctx.region_data = some rd) :
    AlignViewOperator.execute H ctx =
      ⟨OpResult.FINISHED, [],
       { ctx with
         scene := { ctx.scene with
                    plane_align_original_view_rotation := rd.view_rotation },
         region_data := some
           ⟨H.to_track_quat_negZ_Y
             (planeNormal H (worldPos obj sv1) (worldPos obj sv2) (worldPos obj sv3))⟩ }⟩ := by
  unfold AlignViewOperator.execute
  rw [h]
  simp only [hm, hs, hr]
  simp [planeNormal]

/-- Branch lemma: PlaneAlignOperator.execute with no active object. -/
theorem plane_execute_noActive (H : Host) (re : Bool) (pt : ParentType)
    (ctx : Context) (h : Context.activeObj ctx = none) :
    PlaneAlignOperator.execute H re pt ctx =
      ⟨OpResult.CANCELLED,
       [⟨ReportLevel.ERROR_INVALID_CONTEXT, ("Please be in Edit Mode with an active object.")⟩],
       ctx⟩ := by
  unfold PlaneAlignOperator.execute
  rw [h]

/-- Branch lemma: PlaneAlignOperator.execute with an active object not in
edit mode. -/
theorem plane_execute_badMode (H : Host) (re : Bool) (pt : ParentType)
    (ctx : Context) (obj : Obj)
    (h : Context.activeObj ctx = some obj) (hm : obj.mode ≠ ObjMode.EDIT) :
    PlaneAlignOperator.execute H re pt ctx =
      ⟨OpResult.CANCELLED,
       [⟨ReportLevel.ERROR_INVALID_CONTEXT, ("Please be in Edit Mode with an active object.")⟩],
       ctx⟩ := by
  unfold PlaneAlignOperator.execute
  rw [h]
  simp [hm]

/-- Branch lemma: PlaneAlignOperator.execute with a selection that is not
exactly 3 vertices. -/
theorem plane_execute_badCount (H : Host) (re : Bool) (pt : ParentType)
    (ctx : Context) (obj : Obj)
    (h : Context.activeObj ctx = some obj) (hm : obj.mode = ObjMode.EDIT)
    (hc : (selectedVerts obj).length ≠ 3) :
    PlaneAlignOperator.execute H re pt ctx =
      ⟨OpResult.CANCELLED,
       [⟨ReportLevel.ERROR_INVALID_INPUT, ("Please select exactly 3 vertices.")⟩],
       ctx⟩ := by
  unfold PlaneAlignOperator.execute
  rw [h]
  rcases hsel : selectedVerts obj with _ | ⟨a, _ | ⟨b, _ | ⟨c, _ | ⟨d, t⟩⟩⟩⟩
  · simp [hm, hsel]
  · simp [hm, hsel]
  · simp [hm, hsel]
  · exact absurd (by rw [hsel]; rfl) hc
  · simp [hm, hsel]

/-- Branch lemma: PlaneAlignOperator.execute with good mode and selection
but no 3D viewport cancels AFTER having moved the 3D cursor to the plane
center (the source sets the cursor before the viewport guard). -/
theorem plane_execute_noRegion (H : Host) (re : Bool) (pt : ParentType)
    (ctx : Context) (obj : Obj) (sv1 sv2 sv3 : Vertex)
    (h : Context.activeObj ctx = some obj) (hm : obj.mode = ObjMode.EDIT)
    (hs : selectedVerts obj = [sv1, sv2, sv3]) (hr : ctx.region_data = none) :
    PlaneAlignOperator.execute H re pt ctx =
      ⟨OpResult.CANCELLED,
       [⟨ReportLevel.ERROR_INVALID_CONTEXT, ("Not in a 3D viewport.")⟩],
       { ctx with
         scene := { ctx.scene with
           cursor := ⟨planeCenter (worldPos obj sv1) (worldPos obj sv2) (worldPos obj sv3)⟩ } }⟩ := by
  unfold PlaneAlignOperator.execute
  rw [h]
  simp only [hm, hs, hr]
  simp [planeCenter]

/-- The context produced by the successful path of
PlaneAlignOperator.execute, written with the same let chain as the source
embedding. -/
def planeAlignFinishCtx (H : Host) (reset_empty : Bool)
    (parent_type : ParentType) (ctx : Context) (obj : Obj)
    (sv1 sv2 sv3 : Vertex) (rd : RegionView3D) : Context :=
  let v1_world := worldPos obj sv1
  let v2_world := worldPos obj sv2
  let v3_world := worldPos obj sv3
  let vec1 := v2_world - v1_world
  let vec2 := v3_world - v1_world
  let plane_normal := H.normalized (vec1.cross vec2)
  let plane_center := (v1_world + v2_world + v3_world) / (3 : ℚ)
  let ctx1 : Context :=
    { ctx with scene := { ctx.scene with cursor := ⟨plane_center⟩ } }
  let scene1 :=
    { ctx1.scene with
      plane_align_original_view_rotation := rd.view_rotation }
  let rotation_quat := H.to_track_quat_negZ_Y plane_normal
  let region1 : RegionView3D := { view_rotation := rotation_quat }
  let objs1 := scene1.objects.map (fun o =>
    if o.id = obj.id then { o with mode := ObjMode.OBJECT } else o)
  let eid := freshId objs1
  let empty0 : Obj :=
    { id := eid, kind := ObjKind.EmptyPlainAxes, mode := ObjMode.OBJECT,
      verts := [],
      matrix_world := Mat4.translationOf scene1.cursor.location,
      matrix_basis := Mat4.translationOf scene1.cursor.location,
      matrix_parent_inverse := Mat4.identity,
      parent := none,
      location := scene1.cursor.location,
      rotation_euler := Vec3.zero }
  let empty1 := { empty0 with rotation_euler := H.to_euler rotation_quat }
  let objs2 :=
    if obj.id ≠ eid then
      objs1.map (fun o =>
        if o.id = obj.id then
          match parent_type with
          | ParentType.OBJECT => { o with parent := some eid }
          | ParentType.KEEP_TRANSFORM => { o with parent := some eid }
          | ParentType.WITHOUT_INVERSE =>
              { o with
                  parent := some eid
                  matrix_parent_inverse := Mat4.identity }
          | ParentType.KEEP_TRANSFORM_WITHOUT_INVERSE =>
              { o with
                  parent := some eid
                  matrix_parent_inverse := Mat4.identity
                  matrix_basis := Mat4.mul (H.invert4 empty1.matrix_world) o.matrix_world }
        else o)
    else objs1
  let empty2 :=
    if reset_empty then
      { empty1 with
          location := Vec3.zero
          rotation_euler := Vec3.zero }
    else empty1
  { scene := { scene1 with objects := objs2 ++ [empty2] },
    active_object := some eid,
    region_data := some region1 }

/-- Branch lemma: the successful path of PlaneAlignOperator.execute finishes
with no report and the context planeAlignFinishCtx. -/
theorem plane_execute_success (H : Host) (re : Bool) (pt : ParentType)
    (ctx : Context) (obj : Obj) (sv1 sv2 sv3 : Vertex) (rd : RegionView3D)
    (h : Context.activeObj ctx = some obj) (hm : obj.mode = ObjMode.EDIT)
    (hs : selectedVerts obj = [sv1, sv2, sv3])
    (hr : ctx.region_data = some rd) :
    PlaneAlignOperator.execute H re pt ctx =
      ⟨OpResult.FINISHED, [], planeAlignFinishCtx H re pt ctx obj sv1 sv2 sv3 rd⟩ := by
  unfold PlaneAlignOperator.execute planeAlignFinishCtx
  rw [h]
  simp only [hm, hs, hr]
  simp

/-- Branch lemma: RestoreViewOperator.execute with a nonzero component sum
and a viewport present sets the view to the stored rotation. -/
theorem restore_execute_nonzero (ctx : Context) (rd : RegionView3D)
    (hr : ctx.region_data = some rd)
    (hsum : ctx.scene.plane_align_original_view_rotation.compSum ≠ 0) :
    RestoreViewOperator.execute ctx =
      ⟨OpResult.FINISHED, [],
       { ctx with region_data := some ⟨ctx.scene.plane_align_original_view_rotation⟩ }⟩ := by
  unfold RestoreViewOperator.execute
  rw [if_pos hsum, hr]

/-- Branch lemma: RestoreViewOperator.execute with a zero component sum
warns and changes nothing. -/
theorem restore_execute_zero (ctx : Context)
    (hsum : ctx.scene.plane_align_original_view_rotation.compSum = 0) :
    RestoreViewOperator.execute ctx =
      ⟨OpResult.FINISHED,
       [⟨ReportLevel.WARNING, ("Original view rotation not set.")⟩], ctx⟩ := by
  unfold RestoreViewOperator.execute
  rw [if_neg (by simp [hsum])]

/-- Every object in the collection has an id strictly below the fresh id. -/
theorem id_lt_freshId (l : List Obj) : ∀ o ∈ l, o.id < freshId l := by
  have key : ∀ o ∈ l, o.id ≤ l.foldr (fun o m => max o.id m) 0 := by
    induction l with
    | nil => intro o ho; cases ho
    | cons a t ih =>
      intro o ho
      rcases List.mem_cons.mp ho with rfl | ho
      · rw [List.foldr_cons]
        exact le_max_left _ _
      · rw [List.foldr_cons]
        exact le_trans (ih o ho) (le_max_right _ _)
  intro o ho
  exact Nat.lt_succ_of_le (key o ho)

/-- Lookup returns none when no object in the collection has the id. -/
theorem findObj_eq_none (l : List Obj) (i : Nat)
    (h : ∀ o ∈ l, o.id ≠ i) : findObj l i = none := by
  rw [findObj, List.find?_eq_none]
  intro o ho
  simpa using h o ho

/-- Lookup commutes with mapping an id-preserving function over the
collection. -/
theorem findObj_map (g : Obj → Obj) (hg : ∀ o, (g o).id = o.id)
    (l : List Obj) (i : Nat) :
    findObj (l.map g) i = (findObj l i).map g := by
  induction l with
  | nil => rfl
  | cons a t ih =>
    by_cases ha : a.id = i
    · simp [findObj, List.find?, hg, ha]
    · simp only [findObj, List.map, List.find?] at ih ⊢
      rw [show ((g a).id == i) = false by simp [hg, ha],
          show (a.id == i) = false by simp [ha]]
      exact ih

/-- Mapping an id-preserving function over the collection keeps the id
list. -/
theorem ids_map (g : Obj → Obj) (hg : ∀ o, (g o).id = o.id) (l : List Obj) :
    (l.map g).map (fun o => o.id) = l.map (fun o => o.id) := by
  rw [List.map_map]
  exact List.map_congr_left (fun o _ => hg o)

/-- Mapping an id-preserving function over the collection keeps the fresh
id. -/
theorem freshId_map (g : Obj → Obj) (hg : ∀ o, (g o).id = o.id)
    (l : List Obj) : freshId (l.map g) = freshId l := by
  unfold freshId
  congr 1
  induction l with
  | nil => rfl
  | cons a t ih => simp [List.foldr, hg, ih]

/-- Looking up the id of an element appended behind objects that all have
different ids finds that element. -/
theorem findObj_append_last (l : List Obj) (e : Obj)
    (h : ∀ o ∈ l, o.id ≠ e.id) :
    findObj (l ++ [e]) e.id = some e := by
  induction l with
  | nil => simp [findObj, List.find?]
  | cons a t ih =>
    have ha : (a.id == e.id) = false := by
      simp [h a (by simp)]
    simp only [findObj, List.cons_append, List.find?, ha]
    exact ih (fun o ho => h o (by simp [ho]))

/-- Lookup distributes over append when the id is found on the left. -/
theorem findObj_append_left (l l2 : List Obj) (i : Nat) (o : Obj)
    (h : findObj l i = some o) : findObj (l ++ l2) i = some o := by
  induction l with
  | nil => cases h
  | cons a t ih =>
    by_cases ha : (a.id == i) = true
    · simp only [findObj, List.find?, ha] at h ⊢
      exact h
    · have ha' : (a.id == i) = false := by simpa using ha
      simp only [findObj, List.cons_append, List.find?, ha'] at h ⊢
      exact ih h

/-- The active object resolves to an object actually in the collection, and
the lookup at its own id finds it. -/
theorem activeObj_found (ctx : Context) (obj : Obj)
    (h : Context.activeObj ctx = some obj) :
    obj ∈ ctx.scene.objects ∧ findObj ctx.scene.objects obj.id = some obj := by
  unfold Context.activeObj at h
  rcases ha : ctx.active_object with _ | i
  · rw [ha] at h
    cases h
  · rw [ha] at h
    have h' : findObj ctx.scene.objects i = some obj := h
    have h'' : List.find? (fun o => o.id == i) ctx.scene.objects = some obj := h'
    have hmem : obj ∈ ctx.scene.objects := List.mem_of_find?_eq_some h''
    have hid : obj.id = i := by
      have hb := List.find?_some h''
      exact beq_iff_eq.mp hb
    exact ⟨hmem, hid ▸ h'⟩

/-- A concrete host instantiation used for witnesses and counterexamples:
any total functions will do, since the add-on treats them as black boxes. -/
def sampleHost : Host :=
  { normalized := fun v => v,
    to_track_quat_negZ_Y := fun v => ⟨1, v.x, v.y, v.z⟩,
    to_euler := fun q => ⟨q.x, q.y, q.z⟩,
    invert4 := fun m => m }

/-- Three selected vertices spanning the XY plane. -/
def sampleVerts : List Vertex :=
  [⟨⟨0, 0, 0⟩, true⟩, ⟨⟨1, 0, 0⟩, true⟩, ⟨⟨0, 1, 0⟩, true⟩]

/-- A mesh object in edit mode with the three sample vertices selected. -/
def sampleObj : Obj :=
  { id := 1, kind := ObjKind.Mesh, mode := ObjMode.EDIT, verts := sampleVerts,
    matrix_world := Mat4.identity, matrix_basis := Mat4.identity,
    matrix_parent_inverse := Mat4.identity, parent := none,
    location := Vec3.zero, rotation_euler := Vec3.zero }

/-- A scene holding the sample object, with the cursor away from the plane
center and the stored rotation at its registered default. -/
def sampleScene : Scene :=
  { objects := [sampleObj], cursor := ⟨⟨100, 0, 0⟩⟩,
    plane_align_original_view_rotation := ⟨1, 0, 0, 0⟩ }

/-- A fully valid context: active sample object, inside a 3D viewport. -/
def sampleCtx : Context :=
  { scene := sampleScene, active_object := some 1,
    region_data := some ⟨⟨1, 0, 0, 0⟩⟩ }

/-- The sample context outside any 3D viewport. -/
def ctxNoRegion : Context := { sampleCtx with region_data := none }

/-- A unit quaternion whose components sum to zero. -/
def sumZeroQuat : Quat := ⟨1/2, 1/2, -1/2, -1/2⟩

/-- The sample context with the viewport initially at sumZeroQuat. -/
def ctxSumZeroView : Context :=
  { sampleCtx with region_data := some ⟨sumZeroQuat⟩ }

/-- The sample object with three collinear selected vertices. -/
def collinearObj : Obj :=
  { sampleObj with
      verts := [⟨⟨0, 0, 0⟩, true⟩, ⟨⟨1, 0, 0⟩, true⟩, ⟨⟨2, 0, 0⟩, true⟩] }

/-- A fully valid context whose three selected vertices are collinear. -/
def ctxCollinear : Context :=
  { sampleCtx with scene := { sampleScene with objects := [collinearObj] } }

/-- C1: on every successful execution of either align operator (active
object in edit mode, exactly three selected vertices, inside a 3D
viewport), the resulting viewport rotation is the track quaternion, for the
-Z axis with Y up, of the normalized cross product (P2 - P1) x (P3 - P1) of
the world-space positions of the three selected vertices. -/
theorem C1_view_aligned_to_plane_normal
    (H : Host) (re : Bool) (pt : ParentType) (ctx : Context) (obj : Obj)
    (sv1 sv2 sv3 : Vertex) (rd : RegionView3D)
    (h : Context.activeObj ctx = some obj) (hm : obj.mode = ObjMode.EDIT)
    (hs : selectedVerts obj = [sv1, sv2, sv3])
    (hr : ctx.region_data = some rd) :
    (AlignViewOperator.execute H ctx).result = OpResult.FINISHED ∧
    viewRotationOf (AlignViewOperator.execute H ctx).ctx =
      some (H.to_track_quat_negZ_Y
        (planeNormal H (worldPos obj sv1) (worldPos obj sv2) (worldPos obj sv3))) ∧
    (PlaneAlignOperator.execute H re pt ctx).result = OpResult.FINISHED ∧
    viewRotationOf (PlaneAlignOperator.execute H re pt ctx).ctx =
      some (H.to_track_quat_negZ_Y
        (planeNormal H (worldPos obj sv1) (worldPos obj sv2) (worldPos obj sv3))) := by
  rw [align_execute_success H ctx obj sv1 sv2 sv3 rd h hm hs hr,
      plane_execute_success H re pt ctx obj sv1 sv2 sv3 rd h hm hs hr]
  refine ⟨rfl, ?_, rfl, ?_⟩
  · simp [viewRotationOf, planeNormal]
  · simp [viewRotationOf, planeAlignFinishCtx, planeNormal]

/-- C1 witness: instantiation of C1 on the concrete sample context and
host. -/
theorem C1_witness :
    (AlignViewOperator.execute sampleHost sampleCtx).result = OpResult.FINISHED ∧
    viewRotationOf (AlignViewOperator.execute sampleHost sampleCtx).ctx =
      some (sampleHost.to_track_quat_negZ_Y
        (planeNormal sampleHost (worldPos sampleObj ⟨⟨0, 0, 0⟩, true⟩)
          (worldPos sampleObj ⟨⟨1, 0, 0⟩, true⟩)
          (worldPos sampleObj ⟨⟨0, 1, 0⟩, true⟩))) ∧
    (PlaneAlignOperator.execute sampleHost false ParentType.OBJECT sampleCtx).result =
      OpResult.FINISHED ∧
    viewRotationOf (PlaneAlignOperator.execute sampleHost false ParentType.OBJECT sampleCtx).ctx =
      some (sampleHost.to_track_quat_negZ_Y
        (planeNormal sampleHost (worldPos sampleObj ⟨⟨0, 0, 0⟩, true⟩)
          (worldPos sampleObj ⟨⟨1, 0, 0⟩, true⟩)
          (worldPos sampleObj ⟨⟨0, 1, 0⟩, true⟩))) :=
  C1_view_aligned_to_plane_normal sampleHost false ParentType.OBJECT sampleCtx
    sampleObj ⟨⟨0, 0, 0⟩, true⟩ ⟨⟨1, 0, 0⟩, true⟩ ⟨⟨0, 1, 0⟩, true⟩ ⟨⟨1, 0, 0, 0⟩⟩
    (by decide) (by decide) (by decide) (by decide)

/-- Componentwise description of vector addition. -/
@[simp]
theorem Vec3.add_def (a b : Vec3) :
    a + b = ⟨a.x + b.x, a.y + b.y, a.z + b.z⟩ := rfl

/-- Componentwise description of vector subtraction. -/
@[simp]
theorem Vec3.sub_def (a b : Vec3) :
    a - b = ⟨a.x - b.x, a.y - b.y, a.z - b.z⟩ := rfl

/-- Componentwise description of division by a scalar. -/
@[simp]
theorem Vec3.div_def (a : Vec3) (c : ℚ) :
    a / c = (⟨a.x / c, a.y / c, a.z / c⟩ : Vec3) := rfl

/-- C6: collinear selected vertices are not rejected: when the cross product
of the two edge vectors is the zero vector but all guards pass, both align
operators still apply normalization and quaternion construction to the zero
vector and finish without any report. -/
theorem C6_collinear_input_finishes
    (H : Host) (re : Bool) (pt : ParentType) (ctx : Context) (obj : Obj)
    (sv1 sv2 sv3 : Vertex) (rd : RegionView3D)
    (h : Context.activeObj ctx = some obj) (hm : obj.mode = ObjMode.EDIT)
    (hs : selectedVerts obj = [sv1, sv2, sv3])
    (hr : ctx.region_data = some rd)
    (hz : (worldPos obj sv2 - worldPos obj sv1).cross
            (worldPos obj sv3 - worldPos obj sv1) = Vec3.zero) :
    (AlignViewOperator.execute H ctx).result = OpResult.FINISHED ∧
    (AlignViewOperator.execute H ctx).reports = [] ∧
    viewRotationOf (AlignViewOperator.execute H ctx).ctx =
      some (H.to_track_quat_negZ_Y (H.normalized Vec3.zero)) ∧
    (PlaneAlignOperator.execute H re pt ctx).result = OpResult.FINISHED ∧
    (PlaneAlignOperator.execute H re pt ctx).reports = [] ∧
    viewRotationOf (PlaneAlignOperator.execute H re pt ctx).ctx =
      some (H.to_track_quat_negZ_Y (H.normalized Vec3.zero)) := by
  rw [align_execute_success H ctx obj sv1 sv2 sv3 rd h hm hs hr,
      plane_execute_success H re pt ctx obj sv1 sv2 sv3 rd h hm hs hr]
  refine ⟨rfl, rfl, ?_, rfl, rfl, ?_⟩
  · simp only [viewRotationOf, planeNormal, Option.map_some]
    rw [hz]
    rfl
  · simp only [planeAlignFinishCtx, viewRotationOf, planeNormal, Option.map_some]
    rw [hz]
    rfl

/-- C6 witness: the concrete collinear context finishes and feeds the zero
vector to the host quaternion construction. -/
theorem C6_witness :
    (AlignViewOperator.execute sampleHost ctxCollinear).result = OpResult.FINISHED ∧
    (AlignViewOperator.execute sampleHost ctxCollinear).reports = [] ∧
    viewRotationOf (AlignViewOperator.execute sampleHost ctxCollinear).ctx =
      some (sampleHost.to_track_quat_negZ_Y (sampleHost.normalized Vec3.zero)) ∧
    (PlaneAlignOperator.execute sampleHost false ParentType.OBJECT ctxCollinear).result =
      OpResult.FINISHED ∧
    (PlaneAlignOperator.execute sampleHost false ParentType.OBJECT ctxCollinear).reports = [] ∧
    viewRotationOf (PlaneAlignOperator.execute sampleHost false ParentType.OBJECT ctxCollinear).ctx =
      some (sampleHost.to_track_quat_negZ_Y (sampleHost.normalized Vec3.zero)) :=
  C6_collinear_input_finishes sampleHost false ParentType.OBJECT ctxCollinear
    collinearObj ⟨⟨0, 0, 0⟩, true⟩ ⟨⟨1, 0, 0⟩, true⟩ ⟨⟨2, 0, 0⟩, true⟩ ⟨⟨1, 0, 0, 0⟩⟩
    (by decide) (by decide) (by decide) (by decide)
    (by
      simp [worldPos, collinearObj, sampleObj, Mat4.applyV3, Mat4.identity,
            Vec3.cross, Vec3.zero])

/-- C8: in every context and for every host, PlaneAlignOperator.execute
stores the same original rotation, leaves the same final viewport rotation,
and returns the same result set as AlignViewOperator.execute. -/
theorem C8_plane_align_refines_align_view
    (H : Host) (re : Bool) (pt : ParentType) (ctx : Context) :
    (PlaneAlignOperator.execute H re pt ctx).ctx.scene.plane_align_original_view_rotation =
      (AlignViewOperator.execute H ctx).ctx.scene.plane_align_original_view_rotation ∧
    viewRotationOf (PlaneAlignOperator.execute H re pt ctx).ctx =
      viewRotationOf (AlignViewOperator.execute H ctx).ctx ∧
    (PlaneAlignOperator.execute H re pt ctx).result =
      (AlignViewOperator.execute H ctx).result := by
  rcases hA : Context.activeObj ctx with _ | obj
  · rw [plane_execute_noActive H re pt ctx hA, align_execute_noActive H ctx hA]
    exact ⟨rfl, rfl, rfl⟩
  · by_cases hm : obj.mode = ObjMode.EDIT
    · rcases hs : selectedVerts obj with _ | ⟨a, _ | ⟨b, _ | ⟨c, _ | ⟨d, t⟩⟩⟩⟩
      · have hc : (selectedVerts obj).length ≠ 3 := by rw [hs]; simp
        rw [plane_execute_badCount H re pt ctx obj hA hm hc,
            align_execute_badCount H ctx obj hA hm hc]
        exact ⟨rfl, rfl, rfl⟩
      · have hc : (selectedVerts obj).length ≠ 3 := by rw [hs]; simp
        rw [plane_execute_badCount H re pt ctx obj hA hm hc,
            align_execute_badCount H ctx obj hA hm hc]
        exact ⟨rfl, rfl, rfl⟩
      · have hc : (selectedVerts obj).length ≠ 3 := by rw [hs]; simp
        rw [plane_execute_badCount H re pt ctx obj hA hm hc,
            align_execute_badCount H ctx obj hA hm hc]
        exact ⟨rfl, rfl, rfl⟩
      · rcases hr : ctx.region_data with _ | rd
        · rw [plane_execute_noRegion H re pt ctx obj a b c hA hm hs hr,
              align_execute_noRegion H ctx obj a b c hA hm hs hr]
          exact ⟨rfl, rfl, rfl⟩
        · rw [plane_execute_success H re pt ctx obj a b c rd hA hm hs hr,
              align_execute_success H ctx obj a b c rd hA hm hs hr]
          refine ⟨?_, ?_, rfl⟩
          · simp [planeAlignFinishCtx]
          · simp [planeAlignFinishCtx, viewRotationOf, planeNormal]
      · have hc : (selectedVerts obj).length ≠ 3 := by rw [hs]; simp
        rw [plane_execute_badCount H re pt ctx obj hA hm hc,
            align_execute_badCount H ctx obj hA hm hc]
        exact ⟨rfl, rfl, rfl⟩
    · rw [plane_execute_badMode H re pt ctx obj hA hm,
          align_execute_badMode H ctx obj hA hm]
      exact ⟨rfl, rfl, rfl⟩

/-- C10: the plane normal computed by the operators, and therefore the
orientation quaternion derived from it, is invariant under translating all
three world points by the same vector, while the plane center shifts by
exactly that vector. -/
theorem C10_translation_invariance (H : Host) (p1 p2 p3 t : Vec3) :
    planeNormal H (p1 + t) (p2 + t) (p3 + t) = planeNormal H p1 p2 p3 ∧
    H.to_track_quat_negZ_Y (planeNormal H (p1 + t) (p2 + t) (p3 + t)) =
      H.to_track_quat_negZ_Y (planeNormal H p1 p2 p3) ∧
    planeCenter (p1 + t) (p2 + t) (p3 + t) = planeCenter p1 p2 p3 + t := by
  have hdiff : ∀ a b : Vec3, (a + t) - (b + t) = a - b := by
    intro a b
    ext <;> simp
  have hnorm : planeNormal H (p1 + t) (p2 + t) (p3 + t) = planeNormal H p1 p2 p3 := by
    rw [planeNormal, planeNormal, hdiff, hdiff]
  refine ⟨hnorm, by rw [hnorm], ?_⟩
  rw [planeCenter, planeCenter]
  ext <;> simp <;> ring

/-- C9: inside a 3D viewport, RestoreViewOperator.execute always finishes;
it sets the view to the stored rotation, with no report, exactly when the
four stored components sum to a nonzero value, and otherwise warns and
changes nothing.  The registered default (1, 0, 0, 0) sums to 1, so with the
default stored value the operator silently sets the view to the identity
rotation instead of warning. -/
theorem C9_restore_gated_on_component_sum (ctx : Context) (rd : RegionView3D)
    (hr : ctx.region_data = some rd) :
    (RestoreViewOperator.execute ctx).result = OpResult.FINISHED ∧
    (ctx.scene.plane_align_original_view_rotation.compSum ≠ 0 →
      RestoreViewOperator.execute ctx =
        ⟨OpResult.FINISHED, [],
         { ctx with region_data := some ⟨ctx.scene.plane_align_original_view_rotation⟩ }⟩) ∧
    (ctx.scene.plane_align_original_view_rotation.compSum = 0 →
      RestoreViewOperator.execute ctx =
        ⟨OpResult.FINISHED,
         [⟨ReportLevel.WARNING, ("Original view rotation not set.")⟩], ctx⟩) ∧
    registerDefaultStoredRotation.compSum = 1 ∧
    (ctx.scene.plane_align_original_view_rotation = registerDefaultStoredRotation →
      viewRotationOf (RestoreViewOperator.execute ctx).ctx = some ⟨1, 0, 0, 0⟩) := by
  have hdef : registerDefaultStoredRotation.compSum = 1 := by
    norm_num [registerDefaultStoredRotation, Quat.compSum]
  by_cases hsum : ctx.scene.plane_align_original_view_rotation.compSum = 0
  · refine ⟨?_, ?_, ?_, hdef, ?_⟩
    · rw [restore_execute_zero ctx hsum]
    · intro hne
      exact absurd hsum hne
    · intro _
      exact restore_execute_zero ctx hsum
    · intro hq
      rw [hq, hdef] at hsum
      exact absurd hsum one_ne_zero
  · refine ⟨?_, ?_, ?_, hdef, ?_⟩
    · rw [restore_execute_nonzero ctx rd hr hsum]
    · intro _
      exact restore_execute_nonzero ctx rd hr hsum
    · intro h0
      exact absurd h0 hsum
    · intro hq
      rw [restore_execute_nonzero ctx rd hr hsum]
      simp [viewRotationOf, hq, registerDefaultStoredRotation]

/-- C9 witness: the sample context stores the registered default, whose
components sum to 1, so the restore operator finishes and resets the view
to the identity rotation. -/
theorem C9_witness :
    (RestoreViewOperator.execute sampleCtx).result = OpResult.FINISHED ∧
    (sampleCtx.scene.plane_align_original_view_rotation.compSum ≠ 0 →
      RestoreViewOperator.execute sampleCtx =
        ⟨OpResult.FINISHED, [],
         { sampleCtx with
             region_data := some ⟨sampleCtx.scene.plane_align_original_view_rotation⟩ }⟩) ∧
    (sampleCtx.scene.plane_align_original_view_rotation.compSum = 0 →
      RestoreViewOperator.execute sampleCtx =
        ⟨OpResult.FINISHED,
         [⟨ReportLevel.WARNING, ("Original view rotation not set.")⟩], sampleCtx⟩) ∧
    registerDefaultStoredRotation.compSum = 1 ∧
    (sampleCtx.scene.plane_align_original_view_rotation = registerDefaultStoredRotation →
      viewRotationOf (RestoreViewOperator.execute sampleCtx).ctx = some ⟨1, 0, 0, 0⟩) :=
  C9_restore_gated_on_component_sum sampleCtx ⟨⟨1, 0, 0, 0⟩⟩ (by decide)

/-- C3 counterexample: the claim fails for the genuine unit viewport
rotation (1/2, 1/2, -1/2, -1/2), whose components sum to zero: the align
operator succeeds and stores it, but the restore operator then warns and
leaves the aligned view instead of restoring it. -/
theorem C3_counterexample :
    sumZeroQuat.normSq = 1 ∧
    viewRotationOf ctxSumZeroView = some sumZeroQuat ∧
    (AlignViewOperator.execute sampleHost ctxSumZeroView).result = OpResult.FINISHED ∧
    (AlignViewOperator.execute sampleHost ctxSumZeroView).ctx.scene.plane_align_original_view_rotation
      = sumZeroQuat ∧
    viewRotationOf
      (RestoreViewOperator.execute (AlignViewOperator.execute sampleHost ctxSumZeroView).ctx).ctx
      ≠ some sumZeroQuat := by
  have hA := align_execute_success sampleHost ctxSumZeroView sampleObj
    ⟨⟨0, 0, 0⟩, true⟩ ⟨⟨1, 0, 0⟩, true⟩ ⟨⟨0, 1, 0⟩, true⟩ ⟨sumZeroQuat⟩
    (by decide) (by decide) (by decide) rfl
  rw [hA]
  have hzero :
      ({ ctxSumZeroView with
         scene := { ctxSumZeroView.scene with
                    plane_align_original_view_rotation := (⟨sumZeroQuat⟩ : RegionView3D).view_rotation },
         region_data := some
           ⟨sampleHost.to_track_quat_negZ_Y
             (planeNormal sampleHost (worldPos sampleObj ⟨⟨0, 0, 0⟩, true⟩)
               (worldPos sampleObj ⟨⟨1, 0, 0⟩, true⟩)
               (worldPos sampleObj ⟨⟨0, 1, 0⟩, true⟩))⟩ } : Context).scene.plane_align_original_view_rotation.compSum
        = 0 := by
    norm_num [sumZeroQuat, Quat.compSum]
  rw [restore_execute_zero _ hzero]
  refine ⟨by norm_num [sumZeroQuat, Quat.normSq], rfl, rfl, rfl, ?_⟩
  simp only [viewRotationOf, Option.map_some]
  intro hcon
  have hq := Option.some.inj hcon
  rw [show planeNormal sampleHost (worldPos sampleObj ⟨⟨0, 0, 0⟩, true⟩)
        (worldPos sampleObj ⟨⟨1, 0, 0⟩, true⟩)
        (worldPos sampleObj ⟨⟨0, 1, 0⟩, true⟩) = ⟨0, 0, 1⟩ by
      simp [planeNormal, sampleHost, worldPos, sampleObj, Mat4.applyV3,
            Mat4.identity, Vec3.cross]] at hq
  have hw := congrArg Quat.w hq
  norm_num [sampleHost, sumZeroQuat] at hw

/-- C3 as amended: the align-then-restore round trip returns the viewport to
the original rotation q, provided the four components of q sum to a nonzero
value (otherwise the restore operator treats the stored rotation as unset,
warns, and leaves the aligned view in place). -/
theorem C3_roundtrip_restore_of_nonzero_sum
    (H : Host) (ctx : Context) (obj : Obj) (sv1 sv2 sv3 : Vertex)
    (rd : RegionView3D)
    (h : Context.activeObj ctx = some obj) (hm : obj.mode = ObjMode.EDIT)
    (hs : selectedVerts obj = [sv1, sv2, sv3])
    (hr : ctx.region_data = some rd)
    (hsum : rd.view_rotation.compSum ≠ 0) :
    viewRotationOf ctx = some rd.view_rotation ∧
    (AlignViewOperator.execute H ctx).result = OpResult.FINISHED ∧
    (RestoreViewOperator.execute (AlignViewOperator.execute H ctx).ctx).result =
      OpResult.FINISHED ∧
    viewRotationOf
        (RestoreViewOperator.execute (AlignViewOperator.execute H ctx).ctx).ctx =
      some rd.view_rotation := by
  rw [align_execute_success H ctx obj sv1 sv2 sv3 rd h hm hs hr]
  rw [restore_execute_nonzero _
        ⟨H.to_track_quat_negZ_Y
          (planeNormal H (worldPos obj sv1) (worldPos obj sv2) (worldPos obj sv3))⟩
        rfl hsum]
  exact ⟨by simp [viewRotationOf, hr], rfl, rfl, rfl⟩

/-- C3 witness: the round trip at the sample context, whose initial view
rotation (1, 0, 0, 0) has component sum 1. -/
theorem C3_witness :
    viewRotationOf sampleCtx = some (⟨⟨1, 0, 0, 0⟩⟩ : RegionView3D).view_rotation ∧
    (AlignViewOperator.execute sampleHost sampleCtx).result = OpResult.FINISHED ∧
    (RestoreViewOperator.execute (AlignViewOperator.execute sampleHost sampleCtx).ctx).result =
      OpResult.FINISHED ∧
    viewRotationOf
        (RestoreViewOperator.execute (AlignViewOperator.execute sampleHost sampleCtx).ctx).ctx =
      some (⟨⟨1, 0, 0, 0⟩⟩ : RegionView3D).view_rotation :=
  C3_roundtrip_restore_of_nonzero_sum sampleHost sampleCtx sampleObj
    ⟨⟨0, 0, 0⟩, true⟩ ⟨⟨1, 0, 0⟩, true⟩ ⟨⟨0, 1, 0⟩, true⟩ ⟨⟨1, 0, 0, 0⟩⟩
    (by decide) (by decide) (by decide) rfl
    (by norm_num [Quat.compSum])

/-- Dichotomy for AlignViewOperator.execute: either one of the three guards
trips, the operator cancels and reports an error, or none does and it
finishes with no report. -/
theorem align_guard_dichotomy (H : Host) (ctx : Context) :
    ((wrongMode ctx || wrongSelectionCount ctx || noViewport ctx) = true ∧
     (AlignViewOperator.execute H ctx).result = OpResult.CANCELLED ∧
     (AlignViewOperator.execute H ctx).reports.any Report.isError = true) ∨
    ((wrongMode ctx || wrongSelectionCount ctx || noViewport ctx) = false ∧
     (AlignViewOperator.execute H ctx).result = OpResult.FINISHED ∧
     (AlignViewOperator.execute H ctx).reports = []) := by
  rcases hA : Context.activeObj ctx with _ | obj
  · left
    rw [align_execute_noActive H ctx hA]
    refine ⟨?_, rfl, rfl⟩
    simp [wrongMode, hA]
  · by_cases hm : obj.mode = ObjMode.EDIT
    · rcases hs : selectedVerts obj with _ | ⟨a, _ | ⟨b, _ | ⟨c, _ | ⟨d, t⟩⟩⟩⟩
      · have hc : (selectedVerts obj).length ≠ 3 := by rw [hs]; simp
        left
        rw [align_execute_badCount H ctx obj hA hm hc]
        exact ⟨by simp [wrongSelectionCount, hA, hc], rfl, rfl⟩
      · have hc : (selectedVerts obj).length ≠ 3 := by rw [hs]; simp
        left
        rw [align_execute_badCount H ctx obj hA hm hc]
        exact ⟨by simp [wrongSelectionCount, hA, hc], rfl, rfl⟩
      · have hc : (selectedVerts obj).length ≠ 3 := by rw [hs]; simp
        left
        rw [align_execute_badCount H ctx obj hA hm hc]
        exact ⟨by simp [wrongSelectionCount, hA, hc], rfl, rfl⟩
      · rcases hr : ctx.region_data with _ | rd
        · left
          rw [align_execute_noRegion H ctx obj a b c hA hm hs hr]
          exact ⟨by simp [noViewport, hr], rfl, rfl⟩
        · right
          rw [align_execute_success H ctx obj a b c rd hA hm hs hr]
          refine ⟨?_, rfl, rfl⟩
          simp [wrongMode, wrongSelectionCount, noViewport, hA, hm, hs, hr]
      · have hc : (selectedVerts obj).length ≠ 3 := by rw [hs]; simp
        left
        rw [align_execute_badCount H ctx obj hA hm hc]
        exact ⟨by simp [wrongSelectionCount, hA, hc], rfl, rfl⟩
    · left
      rw [align_execute_badMode H ctx obj hA hm]
      exact ⟨by simp [wrongMode, hA, hm], rfl, rfl⟩

/-- Dichotomy for PlaneAlignOperator.execute, mirroring
align_guard_dichotomy. -/
theorem plane_guard_dichotomy (H : Host) (re : Bool) (pt : ParentType)
    (ctx : Context) :
    ((wrongMode ctx || wrongSelectionCount ctx || noViewport ctx) = true ∧
     (PlaneAlignOperator.execute H re pt ctx).result = OpResult.CANCELLED ∧
     (PlaneAlignOperator.execute H re pt ctx).reports.any Report.isError = true) ∨
    ((wrongMode ctx || wrongSelectionCount ctx || noViewport ctx) = false ∧
     (PlaneAlignOperator.execute H re pt ctx).result = OpResult.FINISHED ∧
     (PlaneAlignOperator.execute H re pt ctx).reports = []) := by
  rcases hA : Context.activeObj ctx with _ | obj
  · left
    rw [plane_execute_noActive H re pt ctx hA]
    refine ⟨?_, rfl, rfl⟩
    simp [wrongMode, hA]
  · by_cases hm : obj.mode = ObjMode.EDIT
    · rcases hs : selectedVerts obj with _ | ⟨a, _ | ⟨b, _ | ⟨c, _ | ⟨d, t⟩⟩⟩⟩
      · have hc : (selectedVerts obj).length ≠ 3 := by rw [hs]; simp
        left
        rw [plane_execute_badCount H re pt ctx obj hA hm hc]
        exact ⟨by simp [wrongSelectionCount, hA, hc], rfl, rfl⟩
      · have hc : (selectedVerts obj).length ≠ 3 := by rw [hs]; simp
        left
        rw [plane_execute_badCount H re pt ctx obj hA hm hc]
        exact ⟨by simp [wrongSelectionCount, hA, hc], rfl, rfl⟩
      · have hc : (selectedVerts obj).length ≠ 3 := by rw [hs]; simp
        left
        rw [plane_execute_badCount H re pt ctx obj hA hm hc]
        exact ⟨by simp [wrongSelectionCount, hA, hc], rfl, rfl⟩
      · rcases hr : ctx.region_data with _ | rd
        · left
          rw [plane_execute_noRegion H re pt ctx obj a b c hA hm hs hr]
          exact ⟨by simp [noViewport, hr], rfl, rfl⟩
        · right
          rw [plane_execute_success H re pt ctx obj a b c rd hA hm hs hr]
          refine ⟨?_, rfl, rfl⟩
          simp [wrongMode, wrongSelectionCount, noViewport, hA, hm, hs, hr]
      · have hc : (selectedVerts obj).length ≠ 3 := by rw [hs]; simp
        left
        rw [plane_execute_badCount H re pt ctx obj hA hm hc]
        exact ⟨by simp [wrongSelectionCount, hA, hc], rfl, rfl⟩
    · left
      rw [plane_execute_badMode H re pt ctx obj hA hm]
      exact ⟨by simp [wrongMode, hA, hm], rfl, rfl⟩

/-- C4 counterexample: a context with an active object in edit mode and
exactly three selected vertices, but outside any 3D viewport.  Both align
operators report an error and cancel there, although neither of the two
conditions named by the claim (wrong mode, wrong selection count) holds, so
the claimed two-condition iff is false. -/
theorem C4_counterexample :
    (AlignViewOperator.execute sampleHost ctxNoRegion).result = OpResult.CANCELLED ∧
    (AlignViewOperator.execute sampleHost ctxNoRegion).reports.any Report.isError = true ∧
    (PlaneAlignOperator.execute sampleHost false ParentType.OBJECT ctxNoRegion).result =
      OpResult.CANCELLED ∧
    (PlaneAlignOperator.execute sampleHost false ParentType.OBJECT ctxNoRegion).reports.any
      Report.isError = true ∧
    wrongMode ctxNoRegion = false ∧
    wrongSelectionCount ctxNoRegion = false := by
  rw [align_execute_noRegion sampleHost ctxNoRegion sampleObj
        ⟨⟨0, 0, 0⟩, true⟩ ⟨⟨1, 0, 0⟩, true⟩ ⟨⟨0, 1, 0⟩, true⟩
        (by decide) (by decide) (by decide) rfl,
      plane_execute_noRegion sampleHost false ParentType.OBJECT ctxNoRegion sampleObj
        ⟨⟨0, 0, 0⟩, true⟩ ⟨⟨1, 0, 0⟩, true⟩ ⟨⟨0, 1, 0⟩, true⟩
        (by decide) (by decide) (by decide) rfl]
  exact ⟨rfl, rfl, rfl, rfl, by decide, by decide⟩

/-- C4 as amended: both align operators report an error and cancel exactly
when one of THREE conditions holds: wrong mode (no active object or not in
edit mode), wrong selection count, or no 3D viewport; when none holds they
finish with no report. -/
theorem C4_cancel_iff_three_guards (H : Host) (re : Bool) (pt : ParentType)
    (ctx : Context) :
    ((AlignViewOperator.execute H ctx).result = OpResult.CANCELLED ↔
      (wrongMode ctx || wrongSelectionCount ctx || noViewport ctx) = true) ∧
    ((AlignViewOperator.execute H ctx).reports.any Report.isError = true ↔
      (wrongMode ctx || wrongSelectionCount ctx || noViewport ctx) = true) ∧
    ((AlignViewOperator.execute H ctx).result = OpResult.FINISHED ↔
      (wrongMode ctx || wrongSelectionCount ctx || noViewport ctx) = false) ∧
    ((PlaneAlignOperator.execute H re pt ctx).result = OpResult.CANCELLED ↔
      (wrongMode ctx || wrongSelectionCount ctx || noViewport ctx) = true) ∧
    ((PlaneAlignOperator.execute H re pt ctx).reports.any Report.isError = true ↔
      (wrongMode ctx || wrongSelectionCount ctx || noViewport ctx) = true) ∧
    ((PlaneAlignOperator.execute H re pt ctx).result = OpResult.FINISHED ↔
      (wrongMode ctx || wrongSelectionCount ctx || noViewport ctx) = false) := by
  rcases align_guard_dichotomy H ctx with ⟨hg, h1, h2⟩ | ⟨hg, h1, h2⟩ <;>
    rcases plane_guard_dichotomy H re pt ctx with ⟨hg', h3, h4⟩ | ⟨hg', h3, h4⟩
  · refine ⟨?_, ?_, ?_, ?_, ?_, ?_⟩ <;> simp [h1, h2, h3, h4, hg]
  · rw [hg] at hg'
    exact absurd hg' (by simp)
  · rw [hg] at hg'
    exact absurd hg' (by simp)
  · refine ⟨?_, ?_, ?_, ?_, ?_, ?_⟩ <;> simp [h1, h2, h3, h4, hg]

/-- C5 counterexample: in the no-viewport context, PlaneAlignOperator
reports and cancels, yet the 3D cursor has been moved: the cancel is not
atomic as claimed. -/
theorem C5_counterexample :
    (PlaneAlignOperator.execute sampleHost false ParentType.OBJECT ctxNoRegion).result =
      OpResult.CANCELLED ∧
    (PlaneAlignOperator.execute sampleHost false ParentType.OBJECT ctxNoRegion).reports.any
      Report.isError = true ∧
    (PlaneAlignOperator.execute sampleHost false ParentType.OBJECT ctxNoRegion).ctx.scene.cursor ≠
      ctxNoRegion.scene.cursor := by
  rw [plane_execute_noRegion sampleHost false ParentType.OBJECT ctxNoRegion sampleObj
        ⟨⟨0, 0, 0⟩, true⟩ ⟨⟨1, 0, 0⟩, true⟩ ⟨⟨0, 1, 0⟩, true⟩
        (by decide) (by decide) (by decide) rfl]
  refine ⟨rfl, rfl, ?_⟩
  intro hcon
  have hx := congrArg (fun c => c.location.x) hcon
  norm_num [planeCenter, worldPos, sampleObj, Mat4.applyV3, Mat4.identity,
            ctxNoRegion, sampleCtx, sampleScene] at hx

/-- C5 as amended: every cancel of AlignViewOperator.execute leaves the
context wholly untouched, and every cancel of PlaneAlignOperator.execute
leaves it untouched except on the missing-viewport path, where the only
change is the 3D cursor already moved to the plane center of the three
selected world positions; the stored rotation, the viewport rotation and
all object parents are preserved by every cancel. -/
theorem C5_cancel_atomic_except_cursor (H : Host) (re : Bool)
    (pt : ParentType) (ctx : Context) :
    ((AlignViewOperator.execute H ctx).result = OpResult.CANCELLED →
      (AlignViewOperator.execute H ctx).ctx = ctx) ∧
    ((PlaneAlignOperator.execute H re pt ctx).result = OpResult.CANCELLED →
      ((PlaneAlignOperator.execute H re pt ctx).ctx = ctx ∨
       (noViewport ctx = true ∧
        ∃ obj sv1 sv2 sv3, Context.activeObj ctx = some obj ∧
          obj.mode = ObjMode.EDIT ∧ selectedVerts obj = [sv1, sv2, sv3] ∧
          (PlaneAlignOperator.execute H re pt ctx).ctx =
            { ctx with scene := { ctx.scene with
                cursor := ⟨planeCenter (worldPos obj sv1) (worldPos obj sv2)
                            (worldPos obj sv3)⟩ } }))) := by
  rcases hA : Context.activeObj ctx with _ | obj
  · rw [align_execute_noActive H ctx hA, plane_execute_noActive H re pt ctx hA]
    exact ⟨fun _ => rfl, fun _ => Or.inl rfl⟩
  · by_cases hm : obj.mode = ObjMode.EDIT
    · rcases hs : selectedVerts obj with _ | ⟨a, _ | ⟨b, _ | ⟨c, _ | ⟨d, t⟩⟩⟩⟩
      · have hc : (selectedVerts obj).length ≠ 3 := by rw [hs]; simp
        rw [align_execute_badCount H ctx obj hA hm hc,
            plane_execute_badCount H re pt ctx obj hA hm hc]
        exact ⟨fun _ => rfl, fun _ => Or.inl rfl⟩
      · have hc : (selectedVerts obj).length ≠ 3 := by rw [hs]; simp
        rw [align_execute_badCount H ctx obj hA hm hc,
            plane_execute_badCount H re pt ctx obj hA hm hc]
        exact ⟨fun _ => rfl, fun _ => Or.inl rfl⟩
      · have hc : (selectedVerts obj).length ≠ 3 := by rw [hs]; simp
        rw [align_execute_badCount H ctx obj hA hm hc,
            plane_execute_badCount H re pt ctx obj hA hm hc]
        exact ⟨fun _ => rfl, fun _ => Or.inl rfl⟩
      · rcases hr : ctx.region_data with _ | rd
        · rw [align_execute_noRegion H ctx obj a b c hA hm hs hr,
              plane_execute_noRegion H re pt ctx obj a b c hA hm hs hr]
          refine ⟨fun _ => rfl, fun _ => Or.inr ⟨by simp [noViewport, hr], ?_⟩⟩
          exact ⟨obj, a, b, c, rfl, hm, hs, by simp [hr]⟩
        · rw [align_execute_success H ctx obj a b c rd hA hm hs hr,
              plane_execute_success H re pt ctx obj a b c rd hA hm hs hr]
          refine ⟨fun hcon => ?_, fun hcon => ?_⟩ <;> simp at hcon
      · have hc : (selectedVerts obj).length ≠ 3 := by rw [hs]; simp
        rw [align_execute_badCount H ctx obj hA hm hc,
            plane_execute_badCount H re pt ctx obj hA hm hc]
        exact ⟨fun _ => rfl, fun _ => Or.inl rfl⟩
    · rw [align_execute_badMode H ctx obj hA hm,
          plane_execute_badMode H re pt ctx obj hA hm]
      exact ⟨fun _ => rfl, fun _ => Or.inl rfl⟩

/-- C5 witness: instantiation of the amended atomicity statement on the
concrete no-viewport context. -/
theorem C5_witness :
    (AlignViewOperator.execute sampleHost ctxNoRegion).ctx = ctxNoRegion ∧
    ((PlaneAlignOperator.execute sampleHost false ParentType.OBJECT ctxNoRegion).ctx = ctxNoRegion ∨
     (noViewport ctxNoRegion = true ∧
      ∃ obj sv1 sv2 sv3, Context.activeObj ctxNoRegion = some obj ∧
        obj.mode = ObjMode.EDIT ∧ selectedVerts obj = [sv1, sv2, sv3] ∧
        (PlaneAlignOperator.execute sampleHost false ParentType.OBJECT ctxNoRegion).ctx =
          { ctxNoRegion with scene := { ctxNoRegion.scene with
              cursor := ⟨planeCenter (worldPos obj sv1) (worldPos obj sv2)
                          (worldPos obj sv3)⟩ } })) :=
  ⟨(C5_cancel_atomic_except_cursor sampleHost false ParentType.OBJECT ctxNoRegion).1
     (by rfl),
   (C5_cancel_atomic_except_cursor sampleHost false ParentType.OBJECT ctxNoRegion).2
     (by rfl)⟩

/-- The ids of the objects in a scene collection. -/
def objIds (l : List Obj) : List Nat := l.map (fun o => o.id)

/-- Appending collections appends their id lists. -/
theorem objIds_append (l1 l2 : List Obj) :
    objIds (l1 ++ l2) = objIds l1 ++ objIds l2 := by
  simp [objIds]

/-- Mapping an id-preserving function keeps the id list, in objIds form. -/
theorem objIds_map (g : Obj → Obj) (hg : ∀ o, (g o).id = o.id)
    (l : List Obj) : objIds (l.map g) = objIds l := by
  simpa [objIds] using ids_map g hg l

/-- The fresh id never occurs among the existing ids. -/
theorem freshId_not_mem (l : List Obj) : freshId l ∉ objIds l := by
  intro hmem
  rcases List.mem_map.mp hmem with ⟨o, ho, hid⟩
  exact Nat.lt_irrefl _ (hid ▸ id_lt_freshId l o ho)

/-- The successful plane-align context carries exactly the old objects (ids
unchanged) plus one appended object with the fresh id. -/
theorem planeAlignFinishCtx_objIds (H : Host) (re : Bool) (pt : ParentType)
    (ctx : Context) (obj : Obj) (sv1 sv2 sv3 : Vertex) (rd : RegionView3D) :
    objIds (planeAlignFinishCtx H re pt ctx obj sv1 sv2 sv3 rd).scene.objects =
      objIds ctx.scene.objects ++ [freshId ctx.scene.objects] := by
  have hgmode : ∀ o : Obj,
      ((if o.id = obj.id then { o with mode := ObjMode.OBJECT } else o) : Obj).id = o.id := by
    intro o
    by_cases h : o.id = obj.id <;> simp [h]
  unfold planeAlignFinishCtx
  simp only []
  rw [objIds_append]
  have hfresh :
      freshId (ctx.scene.objects.map
        (fun o => if o.id = obj.id then { o with mode := ObjMode.OBJECT } else o)) =
      freshId ctx.scene.objects :=
    freshId_map _ hgmode ctx.scene.objects
  congr 1
  · by_cases hne : obj.id ≠ freshId (ctx.scene.objects.map
        (fun o => if o.id = obj.id then { o with mode := ObjMode.OBJECT } else o))
    · rw [if_pos hne]
      rw [objIds_map _ ?hpf, objIds_map _ hgmode]
      case hpf =>
        intro o
        by_cases h : o.id = obj.id
        · cases pt <;> simp [h]
        · simp [h]
    · rw [if_neg hne]
      rw [objIds_map _ hgmode]
  · by_cases hre : re <;> simp [hre, hfresh, objIds]

/-- C7 counterexample: a successful PlaneAlignOperator.execute changes the
set of scene objects: the sample scene holds exactly the object with id 1
beforehand and gains a second object (the created empty, id 2). -/
theorem C7_counterexample :
    (PlaneAlignOperator.execute sampleHost false ParentType.OBJECT sampleCtx).result =
      OpResult.FINISHED ∧
    objIds sampleCtx.scene.objects = [1] ∧
    objIds (PlaneAlignOperator.execute sampleHost false ParentType.OBJECT sampleCtx).ctx.scene.objects
      = [1, 2] := by
  rw [plane_execute_success sampleHost false ParentType.OBJECT sampleCtx sampleObj
        ⟨⟨0, 0, 0⟩, true⟩ ⟨⟨1, 0, 0⟩, true⟩ ⟨⟨0, 1, 0⟩, true⟩ ⟨⟨1, 0, 0, 0⟩⟩
        (by decide) (by decide) (by decide) rfl]
  refine ⟨rfl, by decide, ?_⟩
  rw [show (2 : Nat) = freshId sampleCtx.scene.objects by decide,
      show ([1, freshId sampleCtx.scene.objects] : List Nat) =
        objIds sampleCtx.scene.objects ++ [freshId sampleCtx.scene.objects] by decide]
  exact planeAlignFinishCtx_objIds sampleHost false ParentType.OBJECT sampleCtx
    sampleObj ⟨⟨0, 0, 0⟩, true⟩ ⟨⟨1, 0, 0⟩, true⟩ ⟨⟨0, 1, 0⟩, true⟩ ⟨⟨1, 0, 0, 0⟩⟩

/-- C7 as amended: AlignViewOperator and RestoreViewOperator never change
the scene object collection; PlaneAlignOperator leaves it unchanged on every
cancel, and on success destroys nothing and creates exactly one object: the
old ids all survive and a single fresh id is appended. -/
theorem C7_objects_preserved_except_created_empty (H : Host) (re : Bool)
    (pt : ParentType) (ctx : Context) :
    (AlignViewOperator.execute H ctx).ctx.scene.objects = ctx.scene.objects ∧
    (RestoreViewOperator.execute ctx).ctx.scene.objects = ctx.scene.objects ∧
    ((PlaneAlignOperator.execute H re pt ctx).result = OpResult.CANCELLED →
      (PlaneAlignOperator.execute H re pt ctx).ctx.scene.objects = ctx.scene.objects) ∧
    ((PlaneAlignOperator.execute H re pt ctx).result = OpResult.FINISHED →
      objIds (PlaneAlignOperator.execute H re pt ctx).ctx.scene.objects =
        objIds ctx.scene.objects ++ [freshId ctx.scene.objects] ∧
      freshId ctx.scene.objects ∉ objIds ctx.scene.objects) := by
  have hrestore : (RestoreViewOperator.execute ctx).ctx.scene.objects = ctx.scene.objects := by
    by_cases hsum : ctx.scene.plane_align_original_view_rotation.compSum = 0
    · rw [restore_execute_zero ctx hsum]
    · rcases hr : ctx.region_data with _ | rd
      · unfold RestoreViewOperator.execute
        rw [if_pos hsum, hr]
      · rw [restore_execute_nonzero ctx rd hr hsum]
  rcases hA : Context.activeObj ctx with _ | obj
  · rw [align_execute_noActive H ctx hA, plane_execute_noActive H re pt ctx hA]
    exact ⟨rfl, hrestore, fun _ => rfl, fun hcon => by simp at hcon⟩
  · by_cases hm : obj.mode = ObjMode.EDIT
    · rcases hs : selectedVerts obj with _ | ⟨a, _ | ⟨b, _ | ⟨c, _ | ⟨d, t⟩⟩⟩⟩
      · have hc : (selectedVerts obj).length ≠ 3 := by rw [hs]; simp
        rw [align_execute_badCount H ctx obj hA hm hc,
            plane_execute_badCount H re pt ctx obj hA hm hc]
        exact ⟨rfl, hrestore, fun _ => rfl, fun hcon => by simp at hcon⟩
      · have hc : (selectedVerts obj).length ≠ 3 := by rw [hs]; simp
        rw [align_execute_badCount H ctx obj hA hm hc,
            plane_execute_badCount H re pt ctx obj hA hm hc]
        exact ⟨rfl, hrestore, fun _ => rfl, fun hcon => by simp at hcon⟩
      · have hc : (selectedVerts obj).length ≠ 3 := by rw [hs]; simp
        rw [align_execute_badCount H ctx obj hA hm hc,
            plane_execute_badCount H re pt ctx obj hA hm hc]
        exact ⟨rfl, hrestore, fun _ => rfl, fun hcon => by simp at hcon⟩
      · rcases hr : ctx.region_data with _ | rd
        · rw [align_execute_noRegion H ctx obj a b c hA hm hs hr,
              plane_execute_noRegion H re pt ctx obj a b c hA hm hs hr]
          exact ⟨rfl, hrestore, fun _ => rfl, fun hcon => by simp at hcon⟩
        · rw [align_execute_success H ctx obj a b c rd hA hm hs hr,
              plane_execute_success H re pt ctx obj a b c rd hA hm hs hr]
          refine ⟨rfl, hrestore, fun hcon => by simp at hcon, fun _ => ?_⟩
          exact ⟨planeAlignFinishCtx_objIds H re pt ctx obj a b c rd,
                 freshId_not_mem ctx.scene.objects⟩
      · have hc : (selectedVerts obj).length ≠ 3 := by rw [hs]; simp
        rw [align_execute_badCount H ctx obj hA hm hc,
            plane_execute_badCount H re pt ctx obj hA hm hc]
        exact ⟨rfl, hrestore, fun _ => rfl, fun hcon => by simp at hcon⟩
    · rw [align_execute_badMode H ctx obj hA hm,
          plane_execute_badMode H re pt ctx obj hA hm]
      exact ⟨rfl, hrestore, fun _ => rfl, fun hcon => by simp at hcon⟩

/-- C7 witness: instantiation of the amended object-set statement at the
sample context, where the plane-align success appends exactly the fresh id. -/
theorem C7_witness :
    objIds (PlaneAlignOperator.execute sampleHost false ParentType.OBJECT sampleCtx).ctx.scene.objects
      = objIds sampleCtx.scene.objects ++ [freshId sampleCtx.scene.objects] ∧
    freshId sampleCtx.scene.objects ∉ objIds sampleCtx.scene.objects :=
  (C7_objects_preserved_except_created_empty sampleHost false ParentType.OBJECT
    sampleCtx).2.2.2 (by rfl)

/-- Lookup after an id-preserving update map followed by an append: the
entry found is the updated original. -/
theorem findObj_update_append (g : Obj → Obj) (hg : ∀ o, (g o).id = o.id)
    (l l2 : List Obj) (i : Nat) (o : Obj) (hfind : findObj l i = some o) :
    findObj (l.map g ++ l2) i = some (g o) := by
  apply findObj_append_left
  rw [findObj_map g hg, hfind]
  rfl

/-- The object appended by the successful plane-align path: a plain-axes
empty carrying the fresh id, created at the 3D cursor (the plane center),
given the track-quaternion rotation, then zeroed when reset_empty is set. -/
theorem planeAlignFinishCtx_created_empty (H : Host) (re : Bool)
    (pt : ParentType) (ctx : Context) (obj : Obj) (sv1 sv2 sv3 : Vertex)
    (rd : RegionView3D) :
    (planeAlignFinishCtx H re pt ctx obj sv1 sv2 sv3 rd).scene.objects.getLast? =
      some { id := freshId ctx.scene.objects,
             kind := ObjKind.EmptyPlainAxes,
             mode := ObjMode.OBJECT,
             verts := [],
             matrix_world := Mat4.translationOf
               (planeCenter (worldPos obj sv1) (worldPos obj sv2) (worldPos obj sv3)),
             matrix_basis := Mat4.translationOf
               (planeCenter (worldPos obj sv1) (worldPos obj sv2) (worldPos obj sv3)),
             matrix_parent_inverse := Mat4.identity,
             parent := none,
             location := if re then Vec3.zero else
               planeCenter (worldPos obj sv1) (worldPos obj sv2) (worldPos obj sv3),
             rotation_euler := if re then Vec3.zero else
               H.to_euler (H.to_track_quat_negZ_Y
                 (planeNormal H (worldPos obj sv1) (worldPos obj sv2) (worldPos obj sv3))) } := by
  have hgmode : ∀ o : Obj,
      ((if o.id = obj.id then { o with mode := ObjMode.OBJECT } else o) : Obj).id = o.id := by
    intro o
    by_cases h : o.id = obj.id <;> simp [h]
  have hfresh :
      freshId (ctx.scene.objects.map
        (fun o => if o.id = obj.id then { o with mode := ObjMode.OBJECT } else o)) =
      freshId ctx.scene.objects :=
    freshId_map _ hgmode ctx.scene.objects
  unfold planeAlignFinishCtx
  simp only []
  rw [List.getLast?_concat]
  cases re <;> simp [hfresh, planeCenter, planeNormal]

/-- After the successful plane-align path, the original object still
resolves at its id and its parent is the fresh empty, whatever the
parent_type. -/
theorem planeAlignFinishCtx_parent (H : Host) (re : Bool) (pt : ParentType)
    (ctx : Context) (obj : Obj) (sv1 sv2 sv3 : Vertex) (rd : RegionView3D)
    (h : Context.activeObj ctx = some obj) :
    ∃ o', findObj (planeAlignFinishCtx H re pt ctx obj sv1 sv2 sv3 rd).scene.objects
            obj.id = some o' ∧
          o'.parent = some (freshId ctx.scene.objects) := by
  obtain ⟨hmem, hfind⟩ := activeObj_found ctx obj h
  have hgmode : ∀ o : Obj,
      ((if o.id = obj.id then { o with mode := ObjMode.OBJECT } else o) : Obj).id = o.id := by
    intro o
    by_cases h : o.id = obj.id <;> simp [h]
  have hfresh :
      freshId (ctx.scene.objects.map
        (fun o => if o.id = obj.id then { o with mode := ObjMode.OBJECT } else o)) =
      freshId ctx.scene.objects :=
    freshId_map _ hgmode ctx.scene.objects
  have hlt : obj.id < freshId ctx.scene.objects :=
    id_lt_freshId ctx.scene.objects obj hmem
  have h1 : findObj (ctx.scene.objects.map
      (fun o => if o.id = obj.id then { o with mode := ObjMode.OBJECT } else o)) obj.id =
      some { obj with mode := ObjMode.OBJECT } := by
    rw [findObj_map _ hgmode, hfind]
    simp
  unfold planeAlignFinishCtx
  simp only []
  rw [if_pos (show obj.id ≠ _ by rw [hfresh]; exact Nat.ne_of_lt hlt)]
  refine ⟨_, findObj_update_append _ ?hpf _ _ _ _ h1, ?hp⟩
  case hpf =>
    intro o
    by_cases ho : o.id = obj.id
    · cases pt <;> simp [ho]
    · simp [ho]
  case hp =>
    cases pt <;> simp [hfresh]

/-- C2 as amended: every successful PlaneAlignOperator.execute moves the 3D
cursor to the centroid of the three world positions and appends exactly one
new plain-axes empty carrying the fresh id; when reset_empty is off the
empty sits at the centroid with rotation rotation_quat.to_euler(), and when
reset_empty is on its location and rotation are zeroed instead; in either
case the original object ends up parented to the new empty. -/
theorem C2_empty_created_and_parented (H : Host) (re : Bool)
    (pt : ParentType) (ctx : Context) (obj : Obj) (sv1 sv2 sv3 : Vertex)
    (rd : RegionView3D)
    (h : Context.activeObj ctx = some obj) (hm : obj.mode = ObjMode.EDIT)
    (hs : selectedVerts obj = [sv1, sv2, sv3])
    (hr : ctx.region_data = some rd) :
    (PlaneAlignOperator.execute H re pt ctx).result = OpResult.FINISHED ∧
    (PlaneAlignOperator.execute H re pt ctx).ctx.scene.cursor.location =
      planeCenter (worldPos obj sv1) (worldPos obj sv2) (worldPos obj sv3) ∧
    (PlaneAlignOperator.execute H re pt ctx).ctx.scene.objects.getLast? =
      some { id := freshId ctx.scene.objects,
             kind := ObjKind.EmptyPlainAxes,
             mode := ObjMode.OBJECT,
             verts := [],
             matrix_world := Mat4.translationOf
               (planeCenter (worldPos obj sv1) (worldPos obj sv2) (worldPos obj sv3)),
             matrix_basis := Mat4.translationOf
               (planeCenter (worldPos obj sv1) (worldPos obj sv2) (worldPos obj sv3)),
             matrix_parent_inverse := Mat4.identity,
             parent := none,
             location := if re then Vec3.zero else
               planeCenter (worldPos obj sv1) (worldPos obj sv2) (worldPos obj sv3),
             rotation_euler := if re then Vec3.zero else
               H.to_euler (H.to_track_quat_negZ_Y
                 (planeNormal H (worldPos obj sv1) (worldPos obj sv2) (worldPos obj sv3))) } ∧
    (∃ o', findObj (PlaneAlignOperator.execute H re pt ctx).ctx.scene.objects obj.id =
             some o' ∧
           o'.parent = some (freshId ctx.scene.objects)) := by
  rw [plane_execute_success H re pt ctx obj sv1 sv2 sv3 rd h hm hs hr]
  refine ⟨rfl, ?_, ?_, ?_⟩
  · unfold planeAlignFinishCtx
    simp [planeCenter]
  · exact planeAlignFinishCtx_created_empty H re pt ctx obj sv1 sv2 sv3 rd
  · exact planeAlignFinishCtx_parent H re pt ctx obj sv1 sv2 sv3 rd h

/-- C2 witness: instantiation of the amended statement at the sample
context with reset_empty off. -/
theorem C2_witness :
    (PlaneAlignOperator.execute sampleHost false ParentType.OBJECT sampleCtx).result =
      OpResult.FINISHED ∧
    (PlaneAlignOperator.execute sampleHost false ParentType.OBJECT sampleCtx).ctx.scene.cursor.location =
      planeCenter (worldPos sampleObj ⟨⟨0, 0, 0⟩, true⟩)
        (worldPos sampleObj ⟨⟨1, 0, 0⟩, true⟩) (worldPos sampleObj ⟨⟨0, 1, 0⟩, true⟩) ∧
    (PlaneAlignOperator.execute sampleHost false ParentType.OBJECT sampleCtx).ctx.scene.objects.getLast? =
      some { id := freshId sampleCtx.scene.objects,
             kind := ObjKind.EmptyPlainAxes,
             mode := ObjMode.OBJECT,
             verts := [],
             matrix_world := Mat4.translationOf
               (planeCenter (worldPos sampleObj ⟨⟨0, 0, 0⟩, true⟩)
                 (worldPos sampleObj ⟨⟨1, 0, 0⟩, true⟩) (worldPos sampleObj ⟨⟨0, 1, 0⟩, true⟩)),
             matrix_basis := Mat4.translationOf
               (planeCenter (worldPos sampleObj ⟨⟨0, 0, 0⟩, true⟩)
                 (worldPos sampleObj ⟨⟨1, 0, 0⟩, true⟩) (worldPos sampleObj ⟨⟨0, 1, 0⟩, true⟩)),
             matrix_parent_inverse := Mat4.identity,
             parent := none,
             location := if false then Vec3.zero else
               planeCenter (worldPos sampleObj ⟨⟨0, 0, 0⟩, true⟩)
                 (worldPos sampleObj ⟨⟨1, 0, 0⟩, true⟩) (worldPos sampleObj ⟨⟨0, 1, 0⟩, true⟩),
             rotation_euler := if false then Vec3.zero else
               sampleHost.to_euler (sampleHost.to_track_quat_negZ_Y
                 (planeNormal sampleHost (worldPos sampleObj ⟨⟨0, 0, 0⟩, true⟩)
                   (worldPos sampleObj ⟨⟨1, 0, 0⟩, true⟩)
                   (worldPos sampleObj ⟨⟨0, 1, 0⟩, true⟩))) } ∧
    (∃ o', findObj (PlaneAlignOperator.execute sampleHost false ParentType.OBJECT sampleCtx).ctx.scene.objects
             sampleObj.id = some o' ∧
           o'.parent = some (freshId sampleCtx.scene.objects)) :=
  C2_empty_created_and_parented sampleHost false ParentType.OBJECT sampleCtx
    sampleObj ⟨⟨0, 0, 0⟩, true⟩ ⟨⟨1, 0, 0⟩, true⟩ ⟨⟨0, 1, 0⟩, true⟩ ⟨⟨1, 0, 0, 0⟩⟩
    (by decide) (by decide) (by decide) rfl

/-- C2 counterexample: with reset_empty enabled the execution still
succeeds, but the created empty ends at the origin with zero rotation, not
at the centroid with the plane orientation, refuting the claim as stated
for every successful execution. -/
theorem C2_counterexample :
    (PlaneAlignOperator.execute sampleHost true ParentType.OBJECT sampleCtx).result =
      OpResult.FINISHED ∧
    ∃ e, (PlaneAlignOperator.execute sampleHost true ParentType.OBJECT sampleCtx).ctx.scene.objects.getLast?
        = some e ∧
      e.kind = ObjKind.EmptyPlainAxes ∧
      e.location ≠ planeCenter (worldPos sampleObj ⟨⟨0, 0, 0⟩, true⟩)
        (worldPos sampleObj ⟨⟨1, 0, 0⟩, true⟩) (worldPos sampleObj ⟨⟨0, 1, 0⟩, true⟩) ∧
      e.rotation_euler ≠ sampleHost.to_euler (sampleHost.to_track_quat_negZ_Y
        (planeNormal sampleHost (worldPos sampleObj ⟨⟨0, 0, 0⟩, true⟩)
          (worldPos sampleObj ⟨⟨1, 0, 0⟩, true⟩) (worldPos sampleObj ⟨⟨0, 1, 0⟩, true⟩))) := by
  rw [plane_execute_success sampleHost true ParentType.OBJECT sampleCtx sampleObj
        ⟨⟨0, 0, 0⟩, true⟩ ⟨⟨1, 0, 0⟩, true⟩ ⟨⟨0, 1, 0⟩, true⟩ ⟨⟨1, 0, 0, 0⟩⟩
        (by decide) (by decide) (by decide) rfl]
  refine ⟨rfl, ?_⟩
  refine ⟨_, planeAlignFinishCtx_created_empty sampleHost true ParentType.OBJECT
    sampleCtx sampleObj ⟨⟨0, 0, 0⟩, true⟩ ⟨⟨1, 0, 0⟩, true⟩ ⟨⟨0, 1, 0⟩, true⟩
    ⟨⟨1, 0, 0, 0⟩⟩, rfl, ?_, ?_⟩
  · intro hcon
    have hx := congrArg Vec3.x hcon
    norm_num [planeCenter, worldPos, sampleObj, Mat4.applyV3, Mat4.identity,
              Vec3.zero] at hx
  · intro hcon
    have hz := congrArg Vec3.z hcon
    norm_num [planeNormal, planeCenter, worldPos, sampleObj, sampleHost,
              Mat4.applyV3, Mat4.identity, Vec3.zero, Vec3.cross] at hz
